import Mathlib

/-!
Verification of the Skin-Analysis backend (src/Backend/server.js and
src/Backend/models/Analysis.js), shallowly embedded in Lean 4.

The embedding covers:
* a JSON value model together with executable models of the JavaScript
  builtins JSON.parse and JSON.stringify (the backend uses them to shape
  model output);
* the retry helper generateWithRetry (attempt counting, exponential
  backoff delays, error propagation);
* the POST /api/assistant and POST /api/analyze-image request handlers
  (validation, success shaping, fixed 503 fallback payloads);
* the GET /api/analyses handler together with the store query
  Analysis.find().sort(createdAt descending).limit(100).

External collaborators (the Gemini client, MongoDB, Express) are modelled
as explicit inputs: the model client is a function from the 0-based
invocation index to that call's outcome, and the store is the list of
persisted documents (or a store failure).
-/

namespace SkinAnalysis

/-- JSON values, as produced by the JavaScript JSON builtins. Number
literals are modelled as integers: the backend's own JSON payloads and the
spec's examples use only integer numerics, and no claim distinguishes
fractional literals. -/
inductive Json where
  | null
  | bool (b : Bool)
  | num (n : Int)
  | str (s : String)
  | arr (elems : List Json)
  | obj (fields : List (String × Json))
deriving Repr

/-- Property lookup on a JSON value: the value stored under key `k` when
the value is an object that binds `k`, otherwise none. -/
def Json.getField (j : Json) (k : String) : Option Json :=
  match j with
  | .obj fields => fields.lookup k
  | _ => none

/-- Whether a JSON value is an object. -/
def Json.isObj : Json → Bool
  | .obj _ => true
  | _ => false

/-- Whether a JSON value has the exact raw-text wrapper shape
produced by the image-analysis endpoint when parsing fails. -/
def isRawTextWrapper : Json → Bool
  | .obj [(k, .str _)] => k = "rawText"
  | _ => false

/-! ### A model of JSON.parse -/

/-- Leading JSON whitespace removal. -/
def skipWs : List Char → List Char
  | [] => []
  | c :: cs =>
    if c = ' ' ∨ c = '\t' ∨ c = '\n' ∨ c = '\r' then skipWs cs else c :: cs

/-- Decoding of a single-character JSON string escape. -/
def unescapeChar (c : Char) : Option Char :=
  if c = '"' then some '"'
  else if c = '\\' then some '\\'
  else if c = '/' then some '/'
  else if c = 'n' then some '\n'
  else if c = 't' then some '\t'
  else if c = 'r' then some '\r'
  else if c = 'b' then some (Char.ofNat 8)
  else if c = 'f' then some (Char.ofNat 12)
  else none

/-- Body of a JSON string literal, consumed after the opening quote;
returns the decoded characters and the input past the closing quote. -/
def parseStringBody : Nat → List Char → Option (List Char × List Char)
  | 0, _ => none
  | _ + 1, [] => none
  | fuel + 1, c :: cs =>
    if c = '"' then some ([], cs)
    else if c = '\\' then
      match cs with
      | [] => none
      | e :: cs2 =>
        match unescapeChar e with
        | none => none
        | some d =>
          match parseStringBody fuel cs2 with
          | none => none
          | some (body, rest) => some (d :: body, rest)
    else
      match parseStringBody fuel cs with
      | none => none
      | some (body, rest) => some (c :: body, rest)

/-- Longest prefix of decimal digits, together with the remaining input. -/
def takeDigits : List Char → List Char × List Char
  | [] => ([], [])
  | c :: cs =>
    if c.isDigit then
      let (ds, rest) := takeDigits cs
      (c :: ds, rest)
    else ([], c :: cs)

/-- Numeric value of a digit string. -/
def digitsToNat (ds : List Char) : Nat :=
  ds.foldl (fun acc c => 10 * acc + (c.toNat - 48)) 0

/-- Test for a leading keyword (true / false / null). -/
def startsWithChars : List Char → List Char → Option (List Char)
  | [], rest => some rest
  | _, [] => none
  | k :: ks, c :: cs => if k = c then startsWithChars ks cs else none

mutual

/-- Recursive-descent JSON value parser (a model of the grammar accepted by
the JavaScript builtin JSON.parse, restricted to integer number literals).
Consumes leading whitespace, returns the parsed value and the remaining
input. Fuel bounds the recursion depth; jsonParse supplies enough fuel for
every input. -/
def parseJsonValue : Nat → List Char → Option (Json × List Char)
  | 0, _ => none
  | fuel + 1, cs =>
    match skipWs cs with
    | [] => none
    | c :: rest =>
      if c = '"' then
        match parseStringBody fuel rest with
        | none => none
        | some (body, rest2) => some (.str (String.mk body), rest2)
      else if c = '\x7b' then
        match skipWs rest with
        | '\x7d' :: rest2 => some (.obj [], rest2)
        | rest2 =>
          match parseObjMembers fuel rest2 with
          | none => none
          | some (fields, rest3) => some (.obj fields, rest3)
      else if c = '[' then
        match skipWs rest with
        | ']' :: rest2 => some (.arr [], rest2)
        | rest2 =>
          match parseArrItems fuel rest2 with
          | none => none
          | some (elems, rest3) => some (.arr elems, rest3)
      else if c = 't' then
        match startsWithChars ['r', 'u', 'e'] rest with
        | some rest2 => some (.bool true, rest2)
        | none => none
      else if c = 'f' then
        match startsWithChars ['a', 'l', 's', 'e'] rest with
        | some rest2 => some (.bool false, rest2)
        | none => none
      else if c = 'n' then
        match startsWithChars ['u', 'l', 'l'] rest with
        | some rest2 => some (.null, rest2)
        | none => none
      else if c = '-' then
        match takeDigits rest with
        | ([], _) => none
        | (ds, rest2) => some (.num (-(digitsToNat ds : Int)), rest2)
      else if c.isDigit then
        match takeDigits (c :: rest) with
        | ([], _) => none
        | (ds, rest2) => some (.num (digitsToNat ds : Int), rest2)
      else none

/-- Members of a JSON object after the opening brace (nonempty case):
string key, colon, value, then either a comma and more members or the
closing brace. -/
def parseObjMembers : Nat → List Char → Option (List (String × Json) × List Char)
  | 0, _ => none
  | fuel + 1, cs =>
    match skipWs cs with
    | '"' :: rest =>
      match parseStringBody fuel rest with
      | none => none
      | some (key, rest2) =>
        match skipWs rest2 with
        | ':' :: rest3 =>
          match parseJsonValue fuel rest3 with
          | none => none
          | some (v, rest4) =>
            match skipWs rest4 with
            | ',' :: rest5 =>
              match parseObjMembers fuel rest5 with
              | none => none
              | some (fields, rest6) => some ((String.mk key, v) :: fields, rest6)
            | '\x7d' :: rest5 => some ([(String.mk key, v)], rest5)
            | _ => none
        | _ => none
    | _ => none

/-- Items of a JSON array after the opening bracket (nonempty case). -/
def parseArrItems : Nat → List Char → Option (List Json × List Char)
  | 0, _ => none
  | fuel + 1, cs =>
    match parseJsonValue fuel cs with
    | none => none
    | some (v, rest) =>
      match skipWs rest with
      | ',' :: rest2 =>
        match parseArrItems fuel rest2 with
        | none => none
        | some (elems, rest3) => some (v :: elems, rest3)
      | ']' :: rest2 => some ([v], rest2)
      | _ => none

end

/-- Model of the JavaScript builtin JSON.parse: none models a thrown
SyntaxError. The whole input must be consumed (up to trailing
whitespace). -/
def jsonParse (s : String) : Option Json :=
  match parseJsonValue (s.data.length + 1) s.data with
  | none => none
  | some (v, rest) => if skipWs rest = [] then some v else none

/-! ### A model of JSON.stringify -/

/-- Escaping of one character inside a serialized JSON string. -/
def escapeChar (c : Char) : List Char :=
  if c = '"' then ['\\', '"']
  else if c = '\\' then ['\\', '\\']
  else if c = '\n' then ['\\', 'n']
  else if c = '\t' then ['\\', 't']
  else if c = '\r' then ['\\', 'r']
  else [c]

/-- Serialization of a JSON string literal, quotes included. -/
def renderString (s : String) : String :=
  "\"" ++ String.mk (s.data.map escapeChar).flatten ++ "\""

mutual

/-- Model of the JavaScript builtin JSON.stringify on a JSON value. -/
def renderJson : Json → String
  | .null => "null"
  | .bool true => "true"
  | .bool false => "false"
  | .num n => toString n
  | .str s => renderString s
  | .arr elems => "[" ++ String.intercalate "," (renderJsonList elems) ++ "]"
  | .obj fields => "\x7b" ++ String.intercalate "," (renderJsonFields fields) ++ "\x7d"

/-- Serializations of the elements of a JSON array. -/
def renderJsonList : List Json → List String
  | [] => []
  | v :: vs => renderJson v :: renderJsonList vs

/-- Serializations of the members of a JSON object. -/
def renderJsonFields : List (String × Json) → List String
  | [] => []
  | (k, v) :: fs => (renderString k ++ ":" ++ renderJson v) :: renderJsonFields fs

end

/-! ### The model client and generateWithRetry (src/Backend/server.js lines 35-58) -/

/-- Response object returned by a successful ai.models.generateContent
call: an optional text property plus the other properties of the response
object (opaque to the backend, but serialized by JSON.stringify when text
is absent). -/
structure GenResponse where
  text : Option String
  rest : List (String × Json)

/-- Model of JSON.stringify applied to a response object: the text
property when present, then the remaining properties. Properties holding
undefined (an absent text) are dropped by JSON.stringify. -/
def stringifyResponse (r : GenResponse) : String :=
  renderJson (Json.obj
    ((match r.text with
      | some t => [("text", Json.str t)]
      | none => []) ++ r.rest))

/-- Outcome of one ai.models.generateContent call: a response object, or a
thrown error carrying its message. -/
inductive CallOutcome where
  | ok (resp : GenResponse)
  | fail (err : String)

/-- Overall outcome of one generateWithRetry run: the returned response, a
propagated (rethrown) error, or the undefined value returned when the
while loop never executes (retries below 1). -/
inductive RetryOutcome where
  | success (resp : GenResponse)
  | thrown (err : String)
  | undefinedReturn

/-- Observable trace of a generateWithRetry run: its outcome, how many
ai.models.generateContent invocations it made, and the backoff delays (in
milliseconds, in order) it slept between attempts. -/
structure RunResult where
  outcome : RetryOutcome
  invocations : Nat
  delays : List Nat

/-- Loop of generateWithRetry. `attempt` is the JavaScript attempt counter
at the top of the while loop, which there equals the number of calls made
so far (the loop is only re-entered after a failed call, and the counter
is incremented exactly once per failed call). The client maps the 0-based
invocation index to that call's outcome. On a failure the counter becomes
attempt + 1; if it reached retries the error is rethrown, otherwise the
loop sleeps initialDelay * 2 ^ ((attempt + 1) - 1) and retries. -/
def generateWithRetryGo (client : Nat → CallOutcome) (retries : Int)
    (initialDelay : Nat) (attempt : Nat) (delays : List Nat) : RunResult :=
  if (attempt : Int) < retries then
    match client attempt with
    | .ok resp => ⟨.success resp, attempt + 1, delays⟩
    | .fail err =>
      if retries ≤ ((attempt + 1 : Nat) : Int) then ⟨.thrown err, attempt + 1, delays⟩
      else
        generateWithRetryGo client retries initialDelay (attempt + 1)
          (delays ++ [initialDelay * 2 ^ attempt])
  else ⟨.undefinedReturn, attempt, delays⟩
termination_by (retries - (attempt : Int)).toNat
decreasing_by
  simp only [Int.lt_iff_add_one_le] at *
  omega

/-- Model of generateWithRetry(params, retries, initialDelay): run the
while loop from attempt 0. The generation params are absorbed into the
client function, which models ai.models.generateContent applied to them. -/
def generateWithRetry (client : Nat → CallOutcome) (retries : Int)
    (initialDelay : Nat) : RunResult :=
  generateWithRetryGo client retries initialDelay 0 []

/-! ### Endpoint handlers (src/Backend/server.js lines 193-287) -/

/-- An HTTP response: status code and JSON body. -/
structure HttpResponse where
  status : Nat
  body : Json

/-- Text extracted from a successful response, as both endpoints compute
it: response?.text ?? JSON.stringify(response). -/
def respText (r : GenResponse) : String :=
  match r.text with
  | some t => t
  | none => stringifyResponse r

/-- Success shaping of the image-analysis endpoint: JSON.parse the text;
when that throws, wrap the raw text instead. -/
def parseOrWrap (rawText : String) : Json :=
  match jsonParse rawText with
  | some v => v
  | none => Json.obj [("rawText", Json.str rawText)]

/-- Fixed mock reply of the assistant endpoint when the model is
unavailable (src/Backend/server.js line 213). -/
def assistantMockText : String :=
  "I'm temporarily unable to reach the AI model. Here are some general skin care tips: keep skin clean, avoid picking lesions, use gentle sunscreen, and consult a dermatologist for persistent issues."

/-- Handler of POST /api/assistant. The request body's prompt field is
none when absent; the JavaScript truthiness test !prompt also rejects the
empty string. The handler returns the HTTP response paired with the number
of ai.models.generateContent invocations made while serving the request.
The undefinedReturn branch is unreachable here because the handler always
passes retries = 3; it is mapped to what Express would send (res.json drops
an undefined text property). -/
def assistantHandler (prompt : Option String) (client : Nat → CallOutcome) :
    HttpResponse × Nat :=
  if prompt = none ∨ prompt = some "" then
    (⟨400, Json.obj [("success", Json.bool false), ("error", Json.str "Missing prompt")]⟩, 0)
  else
    let run := generateWithRetry client 3 1000
    match run.outcome with
    | .success r =>
      (⟨200, Json.obj [("success", Json.bool true), ("text", Json.str (respText r))]⟩,
        run.invocations)
    | .thrown _ =>
      (⟨503, Json.obj [("success", Json.bool false), ("error", Json.str "model unavailable"),
        ("text", Json.str assistantMockText)]⟩, run.invocations)
    | .undefinedReturn =>
      (⟨200, Json.obj [("success", Json.bool true)]⟩, run.invocations)

/-- Uploaded file as multer presents it (req.file): mimetype and raw
bytes. Its content only feeds the generation request, which the client
function absorbs. -/
structure ImageFile where
  mimetype : Option String
  bytes : List Nat

/-- Fixed fallback result object of the image-analysis endpoint
(src/Backend/server.js lines 271-280). -/
def analyzeFallback : Json :=
  Json.obj [
    ("diagnosis", Json.str "other"),
    ("differential", Json.arr [Json.str "acne", Json.str "contact_dermatitis"]),
    ("confidence", Json.num 45),
    ("severity", Json.str "low"),
    ("treatment_recommendations", Json.arr [
      Json.str "Keep area clean", Json.str "Use gentle cleanser",
      Json.str "Apply non-comedogenic moisturizer", Json.str "Avoid irritants"]),
    ("refer_to_dermatologist", Json.bool false),
    ("notes", Json.str "Model unavailable; returning conservative suggestions."),
    ("disclaimer", Json.str "Not a medical diagnosis; consult a dermatologist.")]

/-- Handler of POST /api/analyze-image. Missing file yields 400; on a
successful invocation the text is parsed-or-wrapped; on exhausted retries
the fixed fallback is returned with status 503. As in assistantHandler,
the undefinedReturn branch is unreachable (retries = 3); res.json would
send a result whose rawText property (holding undefined) is dropped. -/
def analyzeImageHandler (file : Option ImageFile) (client : Nat → CallOutcome) :
    HttpResponse × Nat :=
  match file with
  | none => (⟨400, Json.obj [("error", Json.str "No image uploaded")]⟩, 0)
  | some _ =>
    let run := generateWithRetry client 3 1000
    match run.outcome with
    | .success r =>
      (⟨200, Json.obj [("success", Json.bool true), ("result", parseOrWrap (respText r))]⟩,
        run.invocations)
    | .thrown _ =>
      (⟨503, Json.obj [("success", Json.bool false), ("error", Json.str "model unavailable"),
        ("result", analyzeFallback)]⟩, run.invocations)
    | .undefinedReturn =>
      (⟨200, Json.obj [("success", Json.bool true), ("result", Json.obj [])]⟩,
        run.invocations)

/-! ### The analyses collection and GET /api/analyses
(src/Backend/models/Analysis.js, src/Backend/server.js lines 146-154) -/

/-- A persisted document of the Analysis collection (AnalysisSchema):
optional imageName and notes, a required result of arbitrary JSON shape
(Schema.Types.Mixed), referToDerm defaulting to false, and the
store-managed createdAt timestamp (milliseconds). -/
structure AnalysisRecord where
  imageName : Option String
  result : Json
  notes : Option String
  referToDerm : Bool
  createdAt : Nat

/-- Ordering used by the list query: a sorts before b when its createdAt
is at least b's (descending createdAt). -/
def newerFirst (a b : AnalysisRecord) : Prop :=
  b.createdAt ≤ a.createdAt

instance : DecidableRel newerFirst := fun a b => Nat.decLe b.createdAt a.createdAt

instance : IsTotal AnalysisRecord newerFirst :=
  ⟨fun a b => le_total b.createdAt a.createdAt⟩

instance : IsTrans AnalysisRecord newerFirst :=
  ⟨fun _ _ _ h1 h2 => le_trans h2 h1⟩

/-- Semantics of the store query Analysis.find().sort(createdAt
descending).limit(100): all documents sorted newest first, truncated to
the first 100. -/
def mongoFindNewestLimit100 (docs : List AnalysisRecord) : List AnalysisRecord :=
  (List.insertionSort newerFirst docs).take 100

/-- Response of GET /api/analyses: status, the success flag, the analyses
list on success, the error message on a store failure. (The body carries
documents rather than Json, so it gets its own response type.) -/
structure ListHttpResponse where
  status : Nat
  success : Bool
  analyses : Option (List AnalysisRecord)
  error : Option String

/-- Handler of GET /api/analyses: the store either serves the collection
(modelled as the list of all persisted documents, which the handler's
query sorts and caps) or fails with a message, which the catch block maps
to a 500 response. -/
def listAnalysesHandler (store : Except String (List AnalysisRecord)) :
    ListHttpResponse :=
  match store with
  | .ok docs => ⟨200, true, some (mongoFindNewestLimit100 docs), none⟩
  | .error e => ⟨500, false, none, some e⟩

/-! ### Behaviour of the retry loop -/

/-- One-step unfolding of the retry loop. -/
theorem generateWithRetryGo_eq (client : Nat → CallOutcome) (retries : Int)
    (b attempt : Nat) (delays : List Nat) :
    generateWithRetryGo client retries b attempt delays =
      if (attempt : Int) < retries then
        match client attempt with
        | .ok resp => ⟨.success resp, attempt + 1, delays⟩
        | .fail err =>
          if retries ≤ ((attempt + 1 : Nat) : Int) then ⟨.thrown err, attempt + 1, delays⟩
          else generateWithRetryGo client retries b (attempt + 1) (delays ++ [b * 2 ^ attempt])
      else ⟨.undefinedReturn, attempt, delays⟩ := by
  rw [generateWithRetryGo]

/-- Run of the loop from attempt `a` when every call fails: the loop makes
the remaining `n - a` calls, sleeps after each failure except the last,
and rethrows the last error. -/
theorem generateWithRetryGo_all_fail (client : Nat → CallOutcome) (e : Nat → String)
    (hc : ∀ i, client i = .fail (e i)) (n b : Nat) :
    ∀ (k a : Nat) (delays : List Nat), a < n → n - a = k →
      generateWithRetryGo client (n : Int) b a delays =
        ⟨.thrown (e (n - 1)), n,
          delays ++ (List.range' a (n - 1 - a)).map (fun i => b * 2 ^ i)⟩ := by
  intro k
  induction k with
  | zero => intro a delays ha hk; omega
  | succ k ih =>
    intro a delays ha hk
    rw [generateWithRetryGo_eq, if_pos (by exact_mod_cast ha), hc a]
    dsimp only
    by_cases h2 : n ≤ a + 1
    · rw [if_pos (by exact_mod_cast h2)]
      have h3 : a + 1 = n := by omega
      have h4 : n - 1 - a = 0 := by omega
      rw [h4, h3]
      simp only [List.range'_zero, List.map_nil, List.append_nil]
      rw [show a = n - 1 by omega]
    · rw [if_neg (by exact_mod_cast h2)]
      rw [ih (a + 1) (delays ++ [b * 2 ^ a]) (by omega) (by omega)]
      have h5 : n - 1 - a = (n - 1 - (a + 1)) + 1 := by omega
      rw [h5, List.range'_succ, List.map_cons, List.append_assoc]
      rfl

/-- Run of the loop from attempt `a` when the first success is the call of
index `m` (every earlier call fails): the loop returns that response after
m + 1 calls in total, having slept once per failure. -/
theorem generateWithRetryGo_first_success (client : Nat → CallOutcome)
    (r : GenResponse) (m : Nat) (hm : client m = .ok r)
    (hf : ∀ i, i < m → ∃ s, client i = .fail s) (n b : Nat) :
    ∀ (k a : Nat) (delays : List Nat), a ≤ m → m < n → m - a = k →
      generateWithRetryGo client (n : Int) b a delays =
        ⟨.success r, m + 1,
          delays ++ (List.range' a (m - a)).map (fun i => b * 2 ^ i)⟩ := by
  intro k
  induction k with
  | zero =>
    intro a delays ha hn hk
    have ha' : a = m := by omega
    subst ha'
    rw [generateWithRetryGo_eq, if_pos (by exact_mod_cast hn), hm]
    dsimp only
    simp [List.range'_zero]
  | succ k ih =>
    intro a delays ha hn hk
    have halt : a < m := by omega
    obtain ⟨s, hs⟩ := hf a halt
    rw [generateWithRetryGo_eq, if_pos (by exact_mod_cast (by omega : a < n)), hs]
    dsimp only
    rw [if_neg (by exact_mod_cast (by omega : ¬ n ≤ a + 1))]
    rw [ih (a + 1) (delays ++ [b * 2 ^ a]) (by omega) hn (by omega)]
    have h5 : m - a = (m - (a + 1)) + 1 := by omega
    rw [h5, List.range'_succ, List.map_cons, List.append_assoc]
    rfl

/-- Whole-run form of generateWithRetryGo_all_fail, from attempt 0. -/
theorem generateWithRetry_all_fail (n b : Nat) (hn : 1 ≤ n)
    (client : Nat → CallOutcome) (e : Nat → String)
    (hc : ∀ i, client i = .fail (e i)) :
    generateWithRetry client (n : Int) b =
      ⟨.thrown (e (n - 1)), n, (List.range (n - 1)).map (fun i => b * 2 ^ i)⟩ := by
  unfold generateWithRetry
  rw [generateWithRetryGo_all_fail client e hc n b n 0 [] (by omega) (by omega)]
  simp only [Nat.sub_zero, List.nil_append, RunResult.mk.injEq, true_and]
  rw [List.range_eq_range']

/-- Whole-run form of generateWithRetryGo_first_success, from attempt 0:
success at 1-indexed attempt `k`. -/
theorem generateWithRetry_first_success (n b : Nat)
    (client : Nat → CallOutcome) (r : GenResponse) (k : Nat)
    (hk1 : 1 ≤ k) (hkn : k ≤ n) (hm : client (k - 1) = .ok r)
    (hf : ∀ i, i < k - 1 → ∃ s, client i = .fail s) :
    generateWithRetry client (n : Int) b =
      ⟨.success r, k, (List.range (k - 1)).map (fun i => b * 2 ^ i)⟩ := by
  unfold generateWithRetry
  rw [generateWithRetryGo_first_success client r (k - 1) hm hf n b (k - 1) 0 []
    (by omega) (by omega) (by omega)]
  simp only [Nat.sub_zero, List.nil_append, RunResult.mk.injEq, true_and]
  exact ⟨by omega, by rw [List.range_eq_range']⟩

/-- The retries literal both endpoints pass is the cast of the natural
number 3. -/
theorem generateWithRetry_cast3 (client : Nat → CallOutcome) (b : Nat) :
    generateWithRetry client 3 b = generateWithRetry client ((3 : Nat) : Int) b := rfl

/-- Output of the assistant handler when the prompt is accepted and the
retry wrapper returns a response. -/
theorem assistantHandler_of_success (prompt : Option String)
    (hp : ¬ (prompt = none ∨ prompt = some "")) (client : Nat → CallOutcome)
    (r : GenResponse)
    (hs : (generateWithRetry client 3 1000).outcome = .success r) :
    assistantHandler prompt client =
      (⟨200, Json.obj [("success", Json.bool true), ("text", Json.str (respText r))]⟩,
        (generateWithRetry client 3 1000).invocations) := by
  simp only [assistantHandler, if_neg hp]
  rw [hs]

/-- Output of the assistant handler when the prompt is accepted and the
retry wrapper propagates a failure. -/
theorem assistantHandler_of_thrown (prompt : Option String)
    (hp : ¬ (prompt = none ∨ prompt = some "")) (client : Nat → CallOutcome)
    (err : String)
    (hs : (generateWithRetry client 3 1000).outcome = .thrown err) :
    assistantHandler prompt client =
      (⟨503, Json.obj [("success", Json.bool false), ("error", Json.str "model unavailable"),
        ("text", Json.str assistantMockText)]⟩,
        (generateWithRetry client 3 1000).invocations) := by
  simp only [assistantHandler, if_neg hp]
  rw [hs]

/-- Output of the image-analysis handler when a file is present and the
retry wrapper returns a response. -/
theorem analyzeImageHandler_of_success (f : ImageFile) (client : Nat → CallOutcome)
    (r : GenResponse)
    (hs : (generateWithRetry client 3 1000).outcome = .success r) :
    analyzeImageHandler (some f) client =
      (⟨200, Json.obj [("success", Json.bool true), ("result", parseOrWrap (respText r))]⟩,
        (generateWithRetry client 3 1000).invocations) := by
  simp only [analyzeImageHandler]
  rw [hs]

/-- Output of the image-analysis handler when a file is present and the
retry wrapper propagates a failure. -/
theorem analyzeImageHandler_of_thrown (f : ImageFile) (client : Nat → CallOutcome)
    (err : String)
    (hs : (generateWithRetry client 3 1000).outcome = .thrown err) :
    analyzeImageHandler (some f) client =
      (⟨503, Json.obj [("success", Json.bool false), ("error", Json.str "model unavailable"),
        ("result", analyzeFallback)]⟩,
        (generateWithRetry client 3 1000).invocations) := by
  simp only [analyzeImageHandler]
  rw [hs]

/-! ### Claim theorems -/

/-- Claim C1: for every maxAttempts n ≥ 1, if the model client fails on
every call, generateWithRetry makes exactly n client invocations and then
propagates the failure; if the client first succeeds on attempt k ≤ n,
generateWithRetry returns that result immediately with exactly k
invocations made and no further attempts. -/
theorem generateWithRetry_attempt_counts (n : Nat) (hn : 1 ≤ n) (b : Nat) :
    (∀ (client : Nat → CallOutcome) (e : Nat → String),
      (∀ i, client i = .fail (e i)) →
      (generateWithRetry client (n : Int) b).outcome = .thrown (e (n - 1)) ∧
      (generateWithRetry client (n : Int) b).invocations = n) ∧
    (∀ (client : Nat → CallOutcome) (r : GenResponse) (k : Nat),
      1 ≤ k → k ≤ n → client (k - 1) = .ok r →
      (∀ i, i < k - 1 → ∃ s, client i = .fail s) →
      (generateWithRetry client (n : Int) b).outcome = .success r ∧
      (generateWithRetry client (n : Int) b).invocations = k) := by
  constructor
  · intro client e hc
    rw [generateWithRetry_all_fail n b hn client e hc]
    exact ⟨rfl, rfl⟩
  · intro client r k hk1 hkn hm hf
    rw [generateWithRetry_first_success n b client r k hk1 hkn hm hf]
    exact ⟨rfl, rfl⟩

/-- Witness for generateWithRetry_attempt_counts at n = 3: an always
failing client is invoked three times and the error propagates; a client
succeeding on its second call yields the response after two invocations. -/
theorem generateWithRetry_attempt_counts_witness :
    (generateWithRetry (fun _ => .fail "boom") ((3 : Nat) : Int) 1000).outcome =
      .thrown "boom" ∧
    (generateWithRetry (fun _ => .fail "boom") ((3 : Nat) : Int) 1000).invocations = 3 ∧
    (generateWithRetry (fun i => if i = 0 then .fail "boom" else .ok ⟨some "ok", []⟩)
      ((3 : Nat) : Int) 1000).invocations = 2 := by
  refine ⟨?_, ?_, ?_⟩
  · exact ((generateWithRetry_attempt_counts 3 (by omega) 1000).1 _ (fun _ => "boom")
      (fun _ => rfl)).1
  · exact ((generateWithRetry_attempt_counts 3 (by omega) 1000).1 _ (fun _ => "boom")
      (fun _ => rfl)).2
  · refine ((generateWithRetry_attempt_counts 3 (by omega) 1000).2 _ ⟨some "ok", []⟩ 2
      (by omega) (by omega) rfl ?_).2
    intro i hi
    have hi0 : i = 0 := by omega
    subst hi0
    exact ⟨"boom", rfl⟩

/-- Claim C2: in every run with maxAttempts n and baseDelay b there is no
delay before attempt 1; after the i-th failed attempt (1-indexed, i < n)
the delay before the next attempt is exactly b * 2 ^ (i - 1) (entry i - 1
of the delay list); after the n-th failure the error propagates with no
further delay (the list has exactly n - 1 entries); runs ending in a first
success at attempt k sleep only the first k - 1 delays; and for n = 3,
b = 1000 the delay sequence is 1000ms then 2000ms. -/
theorem generateWithRetry_backoff_delays (n b : Nat) (hn : 1 ≤ n)
    (client : Nat → CallOutcome) (e : Nat → String)
    (hc : ∀ i, client i = .fail (e i)) :
    (generateWithRetry client (n : Int) b).delays =
      (List.range (n - 1)).map (fun i => b * 2 ^ i) ∧
    (generateWithRetry client (n : Int) b).delays.length = n - 1 ∧
    (∀ (client2 : Nat → CallOutcome) (r : GenResponse) (k : Nat),
      1 ≤ k → k ≤ n → client2 (k - 1) = .ok r →
      (∀ i, i < k - 1 → ∃ s, client2 i = .fail s) →
      (generateWithRetry client2 (n : Int) b).delays =
        (List.range (k - 1)).map (fun i => b * 2 ^ i)) ∧
    (generateWithRetry client ((3 : Nat) : Int) 1000).delays = [1000, 2000] := by
  refine ⟨?_, ?_, ?_, ?_⟩
  · rw [generateWithRetry_all_fail n b hn client e hc]
  · rw [generateWithRetry_all_fail n b hn client e hc]
    simp
  · intro client2 r k hk1 hkn hm hf
    rw [generateWithRetry_first_success n b client2 r k hk1 hkn hm hf]
  · rw [generateWithRetry_all_fail 3 1000 (by omega) client e hc]
    rfl

/-- Witness for generateWithRetry_backoff_delays: an always failing client
at n = 3, b = 1000 sleeps 1000ms then 2000ms. -/
theorem generateWithRetry_backoff_delays_witness :
    (generateWithRetry (fun _ => .fail "boom") ((3 : Nat) : Int) 1000).delays =
      [1000, 2000] :=
  (generateWithRetry_backoff_delays 3 1000 (by omega) (fun _ => .fail "boom")
    (fun _ => "boom") (fun _ => rfl)).2.2.2

/-- Claim C9: called with retries ≤ 0 the while loop body never executes,
so generateWithRetry makes zero client invocations and returns the
undefined value: neither a success response nor a propagated failure. -/
theorem generateWithRetry_nonpositive_retries (retries : Int) (h : retries ≤ 0)
    (client : Nat → CallOutcome) (b : Nat) :
    generateWithRetry client retries b = ⟨.undefinedReturn, 0, []⟩ := by
  unfold generateWithRetry
  rw [generateWithRetryGo_eq,
    if_neg (show ¬ ((0 : Nat) : Int) < retries by push_cast; omega)]

/-- Witness for generateWithRetry_nonpositive_retries at retries = -2. -/
theorem generateWithRetry_nonpositive_retries_witness :
    generateWithRetry (fun _ => .fail "boom") (-2) 1000 =
      ⟨.undefinedReturn, 0, []⟩ :=
  generateWithRetry_nonpositive_retries (-2) (by omega) (fun _ => .fail "boom") 1000

/-- Claim C5: a POST /api/assistant request whose body lacks a non-empty
prompt is answered 400 with success false and error "Missing prompt", and
the model client is never invoked (zero generateWithRetry invocations). -/
theorem assistant_missing_prompt_rejected (prompt : Option String)
    (h : prompt = none ∨ prompt = some "") (client : Nat → CallOutcome) :
    assistantHandler prompt client =
      (⟨400, Json.obj [("success", Json.bool false), ("error", Json.str "Missing prompt")]⟩,
        0) := by
  simp only [assistantHandler, if_pos h]

/-- Witness for assistant_missing_prompt_rejected: the empty request body,
with a client that would succeed if it were ever called. -/
theorem assistant_missing_prompt_rejected_witness :
    assistantHandler none (fun _ => .ok ⟨some "hi", []⟩) =
      (⟨400, Json.obj [("success", Json.bool false), ("error", Json.str "Missing prompt")]⟩,
        0) :=
  assistant_missing_prompt_rejected none (Or.inl rfl) (fun _ => .ok ⟨some "hi", []⟩)

/-- Claim C6: on a successful model invocation the assistant endpoint
responds 200 with success true and the model text passed through
unchanged (the text property whenever it is present); no JSON parsing and
no rawText wrapping occur on this endpoint. -/
theorem assistant_success_text_passthrough (prompt : Option String)
    (hp : ¬ (prompt = none ∨ prompt = some "")) (client : Nat → CallOutcome)
    (r : GenResponse)
    (hs : (generateWithRetry client 3 1000).outcome = .success r) :
    (assistantHandler prompt client).1 =
      ⟨200, Json.obj [("success", Json.bool true), ("text", Json.str (respText r))]⟩ ∧
    (∀ t, r.text = some t → respText r = t) := by
  constructor
  · rw [assistantHandler_of_success prompt hp client r hs]
  · intro t ht
    simp [respText, ht]

/-- Witness for assistant_success_text_passthrough: a client that answers
the first call with the text "A reply". -/
theorem assistant_success_text_passthrough_witness :
    (assistantHandler (some "hi") (fun _ => .ok ⟨some "A reply", []⟩)).1 =
      ⟨200, Json.obj [("success", Json.bool true),
        ("text", Json.str (respText ⟨some "A reply", []⟩))]⟩ ∧
    (∀ t, (⟨some "A reply", []⟩ : GenResponse).text = some t →
      respText ⟨some "A reply", []⟩ = t) :=
  assistant_success_text_passthrough (some "hi") (by simp)
    (fun _ => .ok ⟨some "A reply", []⟩) ⟨some "A reply", []⟩
    (by simp [generateWithRetry, generateWithRetryGo])

/-- Claim C4: on a successful model invocation the image-analysis endpoint
responds 200 with success true and result the JSON.parse of the model text
when it parses, otherwise the wrapper holding the original text; in
particular the acne JSON example parses to the object and "hello" is
wrapped. -/
theorem analyzeImage_success_shaping (f : ImageFile) (client : Nat → CallOutcome)
    (r : GenResponse)
    (hs : (generateWithRetry client 3 1000).outcome = .success r) :
    (analyzeImageHandler (some f) client).1 =
      ⟨200, Json.obj [("success", Json.bool true), ("result", parseOrWrap (respText r))]⟩ ∧
    (∀ v, jsonParse (respText r) = some v → parseOrWrap (respText r) = v) ∧
    (jsonParse (respText r) = none →
      parseOrWrap (respText r) = Json.obj [("rawText", Json.str (respText r))]) ∧
    parseOrWrap "\x7b\"diagnosis\":\"acne\",\"confidence\":80\x7d" =
      Json.obj [("diagnosis", Json.str "acne"), ("confidence", Json.num 80)] ∧
    parseOrWrap "hello" = Json.obj [("rawText", Json.str "hello")] := by
  refine ⟨?_, ?_, ?_, rfl, rfl⟩
  · rw [analyzeImageHandler_of_success f client r hs]
  · intro v hv
    simp [parseOrWrap, hv]
  · intro hv
    simp [parseOrWrap, hv]

/-- Witness for analyzeImage_success_shaping: a client answering the first
call with the acne JSON text. -/
theorem analyzeImage_success_shaping_witness :
    (analyzeImageHandler (some ⟨some "image/jpeg", [1, 2]⟩)
      (fun _ => .ok ⟨some "\x7b\"diagnosis\":\"acne\",\"confidence\":80\x7d", []⟩)).1 =
      ⟨200, Json.obj [("success", Json.bool true),
        ("result", parseOrWrap
          (respText ⟨some "\x7b\"diagnosis\":\"acne\",\"confidence\":80\x7d", []⟩))]⟩ :=
  (analyzeImage_success_shaping ⟨some "image/jpeg", [1, 2]⟩
    (fun _ => .ok ⟨some "\x7b\"diagnosis\":\"acne\",\"confidence\":80\x7d", []⟩)
    ⟨some "\x7b\"diagnosis\":\"acne\",\"confidence\":80\x7d", []⟩
    (by simp [generateWithRetry, generateWithRetryGo])).1

/-- Claim C3: when all retry attempts fail, the image-analysis endpoint
responds 503 with success false, error "model unavailable", and the fixed
fallback result object, whose diagnosis is "other" and whose
refer_to_dermatologist is false; the response is one constant, independent
of the uploaded file and of the client's errors. -/
theorem analyzeImage_model_unavailable_fallback (f : ImageFile)
    (client : Nat → CallOutcome) (e : Nat → String)
    (hc : ∀ i, client i = .fail (e i)) :
    (analyzeImageHandler (some f) client).1 =
      ⟨503, Json.obj [("success", Json.bool false), ("error", Json.str "model unavailable"),
        ("result", analyzeFallback)]⟩ ∧
    analyzeFallback.getField "diagnosis" = some (Json.str "other") ∧
    analyzeFallback.getField "refer_to_dermatologist" = some (Json.bool false) := by
  refine ⟨?_, rfl, rfl⟩
  have h3 : (generateWithRetry client 3 1000).outcome = .thrown (e 2) := by
    rw [generateWithRetry_cast3, generateWithRetry_all_fail 3 1000 (by omega) client e hc]
  rw [analyzeImageHandler_of_thrown f client (e 2) h3]

/-- Witness for analyzeImage_model_unavailable_fallback: an always failing
client on a concrete upload. -/
theorem analyzeImage_model_unavailable_fallback_witness :
    (analyzeImageHandler (some ⟨some "image/png", [7]⟩) (fun _ => .fail "boom")).1 =
      ⟨503, Json.obj [("success", Json.bool false), ("error", Json.str "model unavailable"),
        ("result", analyzeFallback)]⟩ :=
  (analyzeImage_model_unavailable_fallback ⟨some "image/png", [7]⟩
    (fun _ => .fail "boom") (fun _ => "boom") (fun _ => rfl)).1

/-- Counterexample to claim C7 as stated: when the model text is "42" the
image-analysis endpoint's result payload is the bare JSON number 42,
produced by JSON.parse — present, but neither a JSON object nor a rawText
wrapper. -/
theorem analyzeImage_result_bare_number :
    ((analyzeImageHandler (some ⟨none, []⟩) (fun _ => .ok ⟨some "42", []⟩)).1).body.getField
        "result" = some (Json.num 42) ∧
    Json.isObj (Json.num 42) = false ∧
    isRawTextWrapper (Json.num 42) = false := by
  refine ⟨?_, rfl, rfl⟩
  simp [analyzeImageHandler, generateWithRetry, generateWithRetryGo]
  rfl

/-- Claim C7 amended: in every shaped image-analysis success response the
result field is present, and it is either the value JSON.parse returned
for the model text — any JSON value, including a bare number, string,
boolean or null — or the raw-text wrapper holding the original text. -/
theorem analyzeImage_result_parsed_or_wrapped (f : ImageFile)
    (client : Nat → CallOutcome) (r : GenResponse)
    (hs : (generateWithRetry client 3 1000).outcome = .success r) :
    ∃ v, ((analyzeImageHandler (some f) client).1).body.getField "result" = some v ∧
      (jsonParse (respText r) = some v ∨
        v = Json.obj [("rawText", Json.str (respText r))]) := by
  refine ⟨parseOrWrap (respText r), ?_, ?_⟩
  · rw [analyzeImageHandler_of_success f client r hs]
    rfl
  · unfold parseOrWrap
    cases h : jsonParse (respText r) with
    | some v => left; simp [h]
    | none => right; simp [h]

/-- Witness for analyzeImage_result_parsed_or_wrapped: a client answering
the first call with the non-JSON text "hello". -/
theorem analyzeImage_result_parsed_or_wrapped_witness :
    ∃ v, ((analyzeImageHandler (some ⟨none, []⟩)
        (fun _ => .ok ⟨some "hello", []⟩)).1).body.getField "result" = some v ∧
      (jsonParse (respText ⟨some "hello", []⟩) = some v ∨
        v = Json.obj [("rawText", Json.str (respText ⟨some "hello", []⟩))]) :=
  analyzeImage_result_parsed_or_wrapped ⟨none, []⟩ (fun _ => .ok ⟨some "hello", []⟩)
    ⟨some "hello", []⟩ (by simp [generateWithRetry, generateWithRetryGo])

/-- Claim C10: when a successful response object has no text property,
both endpoints substitute JSON.stringify(response) for the text: the
assistant returns it as the text field and the image-analysis endpoint
feeds it to the parse-or-wrap step, so the shaped success payload's text
is never absent. -/
theorem success_text_stringify_substitution (r : GenResponse) (hr : r.text = none)
    (client : Nat → CallOutcome)
    (hs : (generateWithRetry client 3 1000).outcome = .success r)
    (prompt : Option String) (hp : ¬ (prompt = none ∨ prompt = some ""))
    (f : ImageFile) :
    respText r = stringifyResponse r ∧
    ((assistantHandler prompt client).1).body.getField "text" =
      some (Json.str (stringifyResponse r)) ∧
    ((analyzeImageHandler (some f) client).1).body.getField "result" =
      some (parseOrWrap (stringifyResponse r)) := by
  have h1 : respText r = stringifyResponse r := by simp [respText, hr]
  refine ⟨h1, ?_, ?_⟩
  · rw [assistantHandler_of_success prompt hp client r hs, ← h1]
    rfl
  · rw [analyzeImageHandler_of_success f client r hs, ← h1]
    rfl

/-- Witness for success_text_stringify_substitution: a response object
with no text property and one other property. -/
theorem success_text_stringify_substitution_witness :
    respText ⟨none, [("modelVersion", Json.str "gemini-2.5-flash")]⟩ =
      stringifyResponse ⟨none, [("modelVersion", Json.str "gemini-2.5-flash")]⟩ ∧
    ((assistantHandler (some "hi")
        (fun _ => .ok ⟨none, [("modelVersion", Json.str "gemini-2.5-flash")]⟩)).1).body.getField
        "text" =
      some (Json.str (stringifyResponse ⟨none, [("modelVersion", Json.str "gemini-2.5-flash")]⟩)) ∧
    ((analyzeImageHandler (some ⟨none, []⟩)
        (fun _ => .ok ⟨none, [("modelVersion", Json.str "gemini-2.5-flash")]⟩)).1).body.getField
        "result" =
      some (parseOrWrap
        (stringifyResponse ⟨none, [("modelVersion", Json.str "gemini-2.5-flash")]⟩)) :=
  success_text_stringify_substitution ⟨none, [("modelVersion", Json.str "gemini-2.5-flash")]⟩
    rfl (fun _ => .ok ⟨none, [("modelVersion", Json.str "gemini-2.5-flash")]⟩)
    (by simp [generateWithRetry, generateWithRetryGo]) (some "hi") (by simp) ⟨none, []⟩

/-- Claim C8: a successfully served GET /api/analyses responds 200 with
success true and a list of at most 100 records ordered most-recent-first
(descending createdAt); a store failure yields 500 with success false and
the error message. -/
theorem listAnalyses_capped_newest_first :
    (∀ docs : List AnalysisRecord,
      listAnalysesHandler (.ok docs) =
        ⟨200, true, some (mongoFindNewestLimit100 docs), none⟩ ∧
      (mongoFindNewestLimit100 docs).length ≤ 100 ∧
      (mongoFindNewestLimit100 docs).Pairwise newerFirst) ∧
    (∀ e, listAnalysesHandler (.error e) = ⟨500, false, none, some e⟩) := by
  constructor
  · intro docs
    refine ⟨rfl, ?_, ?_⟩
    · unfold mongoFindNewestLimit100
      rw [List.length_take]
      exact min_le_left _ _
    · unfold mongoFindNewestLimit100
      exact List.Pairwise.sublist
        (List.take_sublist 100 (List.insertionSort newerFirst docs))
        (List.sorted_insertionSort newerFirst docs)
  · intro e
    rfl

end SkinAnalysis
